import Mathlib

/-!
Verification of the QUIC packet-header codec (`src/model/quic-header.cc`).

The development embeds the `ns3::QuicHeader` class as a Lean structure and
its member functions as pure functions.  The byte buffer of ns-3
(`Buffer::Iterator` with `WriteU8`, `WriteHtonU16/32/64`, `ReadU8`,
`ReadNtohU16/32/64`) is embedded as a `List Nat` of bytes together with
big-endian readers and writers.  Mutating member functions become functions
`QuicHeader → ... → QuicHeader`; `Serialize` produces the list of bytes it
writes, `Deserialize` maps the byte list and the pre-call target object to
the populated object.
-/

namespace QuicCodec

/-- Numeric values of the header-format enum (`m_form` is written to wire
bit 7 and compared against `SHORT`); modelled as `Bool`: `SHORT = false`,
`LONG = true`. -/
def SHORT : Bool := false

/-- Long header format constant. -/
def LONG : Bool := true

/-- Modelled from the spec: the numeric codes of the long-packet-type enum
declared in the (absent) `quic-header.h`.  `TypeToString` indexes
`longTypeNames[6] = {Initial, 0-RTT Protected, Handshake, Retry,
Version Negotiation, None}` by `m_type`, and the spec fixes Initial = 00 on
the wire, so `INITIAL = 0`, `ZRTT_PROTECTED = 1`, `HANDSHAKE = 2`,
`RETRY = 3`, `VERSION_NEGOTIATION = 4`, `NONE = 5`. -/
def INITIAL : Nat := 0

/-- 0-RTT protected long-packet-type code. -/
def ZRTT_PROTECTED : Nat := 1

/-- Handshake long-packet-type code. -/
def HANDSHAKE : Nat := 2

/-- Retry long-packet-type code. -/
def RETRY : Nat := 3

/-- Version-negotiation long-packet-type code. -/
def VERSION_NEGOTIATION : Nat := 4

/-- Sentinel long-packet-type code (`None`). -/
def NONE : Nat := 5

/-- Modelled from the spec: the packet-number-length enum of
`quic-header.h`; `TypeToString` indexes `shortTypeNames` by
`m_packetLength`, so `ONE_OCTECT = 0`, `TWO_OCTECTS = 1`,
`FOUR_OCTECTS = 2` (also the 2-bit `PP` wire code). -/
def ONE_OCTECT : Nat := 0

/-- Two-octet packet-number-length code. -/
def TWO_OCTECTS : Nat := 1

/-- Four-octet packet-number-length code. -/
def FOUR_OCTECTS : Nat := 2

/-- The fields of `ns3::QuicHeader`.  Machine integers are embedded as
`Nat`; all mutators truncate to the field's C++ width. -/
structure QuicHeader where
  m_form : Bool
  m_fixed : Nat
  m_type : Nat
  m_s : Bool
  m_k : Bool
  m_packetLength : Nat
  m_version : Nat
  m_DCIDLength : Nat
  m_connectionId : Nat
  m_SCIDLength : Nat
  m_SCID : Nat
  m_packetNumber : Nat
  m_c : Bool
deriving Repr, DecidableEq

/-- The default constructor `QuicHeader::QuicHeader()` (quic-header.cc
lines 41-63): short form, fixed bit 1, everything else zero / false. -/
def QuicHeader.fresh : QuicHeader :=
  { m_form := SHORT
    m_fixed := 1
    m_type := 0
    m_s := false
    m_k := false
    m_packetLength := 0
    m_version := 0
    m_DCIDLength := 0
    m_connectionId := 0
    m_SCIDLength := 0
    m_SCID := 0
    m_packetNumber := 0
    m_c := false }

/-- `QuicHeader::IsShort`: `m_form == SHORT`. -/
def IsShort (h : QuicHeader) : Bool := h.m_form == SHORT

/-- `QuicHeader::IsLong` (declared in the header file; the negation of
`IsShort`, i.e. `m_form == LONG`). -/
def IsLong (h : QuicHeader) : Bool := h.m_form == LONG

/-- `QuicHeader::HasVersion`: `IsLong ()`. -/
def HasVersion (h : QuicHeader) : Bool := IsLong h

/-- `QuicHeader::HasConnectionId`: `not (IsShort () and m_c == false)`. -/
def HasConnectionId (h : QuicHeader) : Bool := !(IsShort h && h.m_c == false)

/-- `QuicHeader::IsVersionNegotiation`: `m_version == 0`. -/
def IsVersionNegotiation (h : QuicHeader) : Bool := h.m_version == 0

/-- `QuicHeader::IsInitial`: `m_type == INITIAL`. -/
def IsInitial (h : QuicHeader) : Bool := h.m_type == INITIAL

/-- `QuicHeader::SetType` (uint8_t argument). -/
def SetType (h : QuicHeader) (t : Nat) : QuicHeader := { h with m_type := t % 256 }

/-- `QuicHeader::SetPacketLength` (uint8_t argument). -/
def SetPacketLength (h : QuicHeader) (l : Nat) : QuicHeader :=
  { h with m_packetLength := l % 256 }

/-- `QuicHeader::SetFormat` (bool argument). -/
def SetFormat (h : QuicHeader) (f : Bool) : QuicHeader := { h with m_form := f }

/-- `QuicHeader::SetConnectionID`: stores the 64-bit id and, on a short
header, raises the legacy `m_c` presence flag. -/
def SetConnectionID (h : QuicHeader) (c : Nat) : QuicHeader :=
  let h1 : QuicHeader := { h with m_connectionId := c % 2 ^ 64 }
  if IsShort h1 then { h1 with m_c := true } else h1

/-- `QuicHeader::SetVersion` (uint32_t argument; the `NS_ASSERT
(HasVersion ())` guard aborts on a short header and is not part of the
value-level behaviour modelled here). -/
def SetVersion (h : QuicHeader) (v : Nat) : QuicHeader :=
  { h with m_version := v % 2 ^ 32 }

/-- `QuicHeader::SetSpinBit` (asserts `IsShort` in the source). -/
def SetSpinBit (h : QuicHeader) (b : Bool) : QuicHeader := { h with m_s := b }

/-- `QuicHeader::SetKeyPhaseBit` (asserts `IsShort` in the source). -/
def SetKeyPhaseBit (h : QuicHeader) (b : Bool) : QuicHeader := { h with m_k := b }

/-- `QuicHeader::SetPacketNumber` (quic-header.cc lines 488-508): stores
the 32-bit sequence number and, on a short header, re-derives
`m_packetLength` as the minimal width of the stored value. -/
def SetPacketNumber (h : QuicHeader) (p : Nat) : QuicHeader :=
  let pv := p % 2 ^ 32
  let h1 : QuicHeader := { h with m_packetNumber := pv }
  if IsShort h1 then
    if pv < 256 then SetPacketLength h1 ONE_OCTECT
    else if pv < 65536 then SetPacketLength h1 TWO_OCTECTS
    else SetPacketLength h1 FOUR_OCTECTS
  else h1

/-- `QuicHeader::GetDCIDLen`. -/
def GetDCIDLen (h : QuicHeader) : Nat := h.m_DCIDLength

/-- `QuicHeader::GetSCIDLen`. -/
def GetSCIDLen (h : QuicHeader) : Nat := h.m_SCIDLength

/-- `QuicHeader::GetPacketNumLen` (quic-header.cc lines 136-163): 32 for a
long header, else 8/16/32 by the packet-number-length code; any other code
hits `NS_FATAL_ERROR` followed by `return 0`, modelled as 0. -/
def GetPacketNumLen (h : QuicHeader) : Nat :=
  if IsLong h then 32
  else
    match h.m_packetLength with
    | 0 => 8
    | 1 => 16
    | 2 => 32
    | _ => 0

/-- `QuicHeader::CalculateHeaderLength` (quic-header.cc lines 116-134):
bit count divided by 8.  Long: `8 + 32 + 8 + 8 + GetDCIDLen () +
GetSCIDLen ()`; short: `8 + 160 * HasConnectionId () + GetPacketNumLen ()`. -/
def CalculateHeaderLength (h : QuicHeader) : Nat :=
  if IsLong h then (8 + 32 + 8 + 8 + GetDCIDLen h + GetSCIDLen h) / 8
  else (8 + 160 * (if HasConnectionId h then 1 else 0) + GetPacketNumLen h) / 8

/-- `QuicHeader::GetVersion` with its `NS_ASSERT (HasVersion ())` guard
embedded as an `Option`: `none` is the `InvalidFieldAccess` abort. -/
def GetVersion (h : QuicHeader) : Option Nat :=
  if HasVersion h then some h.m_version else none

/-- `QuicHeader::GetConnectionId` with its `NS_ASSERT (HasConnectionId ())`
guard embedded as an `Option`. -/
def GetConnectionId (h : QuicHeader) : Option Nat :=
  if HasConnectionId h then some h.m_connectionId else none

/-- `QuicHeader::GetSpinBit` with its `NS_ASSERT (IsShort ())` guard. -/
def GetSpinBit (h : QuicHeader) : Option Bool :=
  if IsShort h then some h.m_s else none

/-- `QuicHeader::GetKeyPhaseBit` with its `NS_ASSERT (IsShort ())` guard. -/
def GetKeyPhaseBit (h : QuicHeader) : Option Bool :=
  if IsShort h then some h.m_k else none

/-- Big-endian writer of `n` bytes, the semantics of the ns-3 buffer calls
`WriteU8` (n = 1), `WriteHtonU16` (2), `WriteHtonU32` (4), `WriteHtonU64`
(8); each emitted byte is the corresponding base-256 digit, so the C++
truncating casts are included. -/
def writeBE : Nat → Nat → List Nat
  | 0, _ => []
  | n + 1, v => (v / 256 ^ n) % 256 :: writeBE n v

/-- `Buffer::Iterator::ReadU8`: first byte (a uint8_t) and the rest. -/
def readU8 (bs : List Nat) : Nat × List Nat := (bs.headD 0 % 256, bs.tail)

/-- Big-endian reader of `n` bytes (`ReadU8` / `ReadNtohU16` /
`ReadNtohU32` / `ReadNtohU64`). -/
def readBE : Nat → List Nat → Nat × List Nat
  | 0, bs => (0, bs)
  | n + 1, bs =>
    let p := readU8 bs
    let q := readBE n p.2
    (p.1 * 256 ^ n + q.1, q.2)

/-- `QuicHeader::Serialize` (quic-header.cc lines 165-218) as the list of
bytes written.  Long: flags `11TTXXXX`, version (4B), DCID length field
(1B), DCID (8B), SCID length field (1B), SCID (8B), then the 4-byte packet
number unless `IsVersionNegotiation`.  Short: flags `01S00KPP`, optional
8-byte DCID, then the packet number in the width selected by
`m_packetLength` (the switch writes nothing for a code outside {0,1,2}). -/
def Serialize (h : QuicHeader) : List Nat :=
  if h.m_form then
    writeBE 1 ((cond h.m_form 1 0) * 128 + h.m_fixed * 64 + h.m_type * 16) ++
      writeBE 4 h.m_version ++
      writeBE 1 h.m_DCIDLength ++ writeBE 8 h.m_connectionId ++
      writeBE 1 h.m_SCIDLength ++ writeBE 8 h.m_SCID ++
      (if IsVersionNegotiation h then [] else writeBE 4 h.m_packetNumber)
  else
    writeBE 1 ((cond h.m_form 1 0) * 128 + h.m_fixed * 64 +
        (cond h.m_s 1 0) * 32 + (cond h.m_k 1 0) * 4 + h.m_packetLength) ++
      (if HasConnectionId h then writeBE 8 h.m_connectionId else []) ++
      (match h.m_packetLength with
       | 0 => writeBE 1 h.m_packetNumber
       | 1 => writeBE 2 h.m_packetNumber
       | 2 => writeBE 4 h.m_packetNumber
       | _ => [])

/-- `QuicHeader::Deserialize` (quic-header.cc lines 220-276) applied to the
byte list and the pre-call target object (`this`).  Reads the flags byte,
sets `m_form` from bit 7; short: `m_s` from bit 5 and `m_k` from bit 2
(bits 1-0 are not read); long: `m_type` from bits 5-4.  Then, in source
order: if `HasConnectionId` read an 8-byte DCID; if long read the 4-byte
version and, unless version negotiation, a 4-byte packet number; if short
read the packet number in the width selected by the current (pre-call)
`m_packetLength` (nothing for a code outside {0,1,2}). -/
def Deserialize (bs : List Nat) (h0 : QuicHeader) : QuicHeader :=
  let r0 := readU8 bs
  let t := r0.1
  let h1 : QuicHeader := { h0 with m_form := (t / 128 % 2 == 1) }
  let h2 :=
    if IsShort h1 then { h1 with m_s := (t / 32 % 2 == 1), m_k := (t / 4 % 2 == 1) }
    else SetType h1 (t / 16 % 4)
  let rc := if HasConnectionId h2 then
      let r := readBE 8 r0.2
      (SetConnectionID h2 r.1, r.2)
    else (h2, r0.2)
  let h3 := rc.1
  if IsLong h3 then
    let rv := readBE 4 rc.2
    let h4 := SetVersion h3 rv.1
    if IsVersionNegotiation h4 then h4
    else SetPacketNumber h4 (readBE 4 rv.2).1
  else
    match h3.m_packetLength with
    | 0 => SetPacketNumber h3 (readBE 1 rc.2).1
    | 1 => SetPacketNumber h3 (readBE 2 rc.2).1
    | 2 => SetPacketNumber h3 (readBE 4 rc.2).1
    | _ => h3

/-- `operator== (const QuicHeader&, const QuicHeader&)` (quic-header.cc
lines 607-634): structural equality, comparing long-specific fields when
both are long, short-specific fields when both are short, never equal
across forms. -/
def headerEq (l r : QuicHeader) : Bool :=
  if l.m_form == r.m_form then
    if l.m_form then
      l.m_type == r.m_type && l.m_version == r.m_version &&
        l.m_DCIDLength == r.m_DCIDLength && l.m_connectionId == r.m_connectionId &&
        l.m_SCIDLength == r.m_SCIDLength && l.m_SCID == r.m_SCID &&
        l.m_packetNumber == r.m_packetNumber
    else
      l.m_s == r.m_s && l.m_k == r.m_k && l.m_packetLength == r.m_packetLength &&
        l.m_connectionId == r.m_connectionId && l.m_packetNumber == r.m_packetNumber
  else false

/-- `QuicHeader::CreateInitial` (quic-header.cc lines 308-321). -/
def CreateInitial (connectionId version packetNumber : Nat) : QuicHeader :=
  SetPacketNumber
    (SetVersion
      (SetConnectionID (SetType (SetFormat QuicHeader.fresh LONG) INITIAL) connectionId)
      version)
    packetNumber

/-- `QuicHeader::CreateShort` (quic-header.cc lines 368-389). -/
def CreateShort (connectionId packetNumber : Nat)
    (connectionIdFlag keyPhaseBit spinBit : Bool) : QuicHeader :=
  let head := SetPacketNumber
    (SetKeyPhaseBit (SetSpinBit (SetFormat QuicHeader.fresh SHORT) spinBit) keyPhaseBit)
    packetNumber
  if connectionIdFlag then SetConnectionID head connectionId else head

/-- `QuicHeader::CreateVersionNegotiation` (quic-header.cc lines 391-421):
sets format long and version 0; the `SetType (VERSION_NEGOTIATION)` call
and the supported-versions payload are commented out in the source, so the
list argument is ignored and `m_type` keeps its constructor default. -/
def CreateVersionNegotiation (connectionId version : Nat)
    (supportedVersions : List Nat) : QuicHeader :=
  SetVersion (SetConnectionID (SetFormat QuicHeader.fresh LONG) connectionId) 0

/-- The minimal-width packet-number-length code that
`QuicHeader::SetPacketNumber` assigns for a given stored value. -/
def pnCode (p : Nat) : Nat :=
  if p < 256 then ONE_OCTECT else if p < 65536 then TWO_OCTECTS else FOUR_OCTECTS

/-- The long-header size formula as the spec's §4.2 states it, for
comparison with `CalculateHeaderLength`: length fields scaled by 8 and a
4-byte packet number unless version negotiation. -/
def specLongHeaderLength (h : QuicHeader) : Nat :=
  (8 + 32 + 8 + 8 + h.m_DCIDLength * 8 + h.m_SCIDLength * 8 +
    (if IsVersionNegotiation h then 0 else 32)) / 8

set_option maxRecDepth 8000

theorem writeBE_length (n v : Nat) : (writeBE n v).length = n := by
  induction n generalizing v with
  | zero => rfl
  | succ n ih => simp [writeBE, ih]

theorem readBE_writeBE (n v : Nat) (tl : List Nat) :
    readBE n (writeBE n v ++ tl) = (v % 256 ^ n, tl) := by
  induction n generalizing v with
  | zero => simp [readBE, writeBE, Nat.mod_one]
  | succ n ih =>
    simp only [writeBE, readBE, List.cons_append, readU8, List.headD, List.tail, ih]
    rw [Prod.mk.injEq]
    refine ⟨?_, rfl⟩
    rw [Nat.mod_mod_of_dvd _ dvd_rfl, pow_succ, Nat.mod_mul]
    ring

theorem readBE_writeBE_nil (n v : Nat) :
    readBE n (writeBE n v) = (v % 256 ^ n, []) := by
  simpa using readBE_writeBE n v []

theorem writeBE_one (v : Nat) : writeBE 1 v = [v % 256] := by
  simp [writeBE]

theorem setPacketNumber_eval (h : QuicHeader) (p : Nat) (hs : h.m_form = false) :
    SetPacketNumber h p =
      { h with
        m_packetNumber := p % 2 ^ 32
        m_packetLength :=
          if p % 2 ^ 32 < 256 then 0 else if p % 2 ^ 32 < 65536 then 1 else 2 } := by
  simp only [SetPacketNumber, SetPacketLength, IsShort, SHORT, ONE_OCTECT,
    TWO_OCTECTS, FOUR_OCTECTS, hs]
  split_ifs <;> simp_all

/-- Claim C1 (code bug witness): the long-header round trip of §8 fails at
the concrete header `CreateInitial (0x1122334455667788, 1, 5)` deserialized
into a default-constructed header: `Deserialize` skips the two length
fields and the SCID and reads the connection id before the version, so the
recovered header has `version = 0x44556677` and
`connectionId = 0x0000000100112233` instead of the serialized
`version = 1`, `connectionId = 0x1122334455667788`, and structural
equality rejects the pair. -/
theorem claim_C1_long_roundtrip_fails :
    headerEq (Deserialize (Serialize (CreateInitial 0x1122334455667788 1 5)) QuicHeader.fresh)
        (CreateInitial 0x1122334455667788 1 5) = false ∧
    (Deserialize (Serialize (CreateInitial 0x1122334455667788 1 5))
        QuicHeader.fresh).m_version = 0x44556677 ∧
    (Deserialize (Serialize (CreateInitial 0x1122334455667788 1 5))
        QuicHeader.fresh).m_connectionId = 0x0000000100112233 ∧
    (CreateInitial 0x1122334455667788 1 5).m_version = 1 ∧
    (CreateInitial 0x1122334455667788 1 5).m_connectionId = 0x1122334455667788 := by
  decide

/-- Claim C2 (counterexample): on the long header built by
`CreateInitial (0, 1, 0)` (both stored length fields 0, version 1) the
code's size calculator returns `56 / 8 = 7` while the claimed formula
`(8 + 32 + 8 + 8 + DCID·8 + SCID·8 + 32) / 8` gives 11: the code neither
scales the length fields by 8 nor adds a packet-number term. -/
theorem claim_C2_counterexample :
    CalculateHeaderLength (CreateInitial 0 1 0) = 7 ∧
    specLongHeaderLength (CreateInitial 0 1 0) = 11 ∧
    CalculateHeaderLength (CreateInitial 0 1 0) ≠ specLongHeaderLength (CreateInitial 0 1 0) := by
  decide

/-- Claim C2 (amended): for every long header the size calculator returns
`(8 + 32 + 8 + 8 + destinationConnectionIdLength + sourceConnectionIdLength) / 8`
bytes — the stored length fields are added as raw bit counts without the
·8 factor, and no packet-number term is included (the result is
independent of `version` and `packetNumber`, hence the same for
version-negotiation and ordinary long headers). -/
theorem claim_C2_amended (h : QuicHeader) (v p : Nat) (hl : h.m_form = true) :
    CalculateHeaderLength h = (8 + 32 + 8 + 8 + h.m_DCIDLength + h.m_SCIDLength) / 8 ∧
    CalculateHeaderLength { h with m_version := v, m_packetNumber := p } =
      CalculateHeaderLength h := by
  simp [CalculateHeaderLength, IsLong, LONG, hl, GetDCIDLen, GetSCIDLen]

theorem claim_C2_amended_witness :
    CalculateHeaderLength (CreateInitial 0 1 0) =
      (8 + 32 + 8 + 8 + (CreateInitial 0 1 0).m_DCIDLength +
        (CreateInitial 0 1 0).m_SCIDLength) / 8 ∧
    CalculateHeaderLength { CreateInitial 0 1 0 with m_version := 7, m_packetNumber := 9 } =
      CalculateHeaderLength (CreateInitial 0 1 0) :=
  claim_C2_amended (CreateInitial 0 1 0) 7 9 (by decide)

/-- Claim C4: `SetPacketNumber` on a short header stores the 32-bit value
and sets the minimal packet-number-length code: One below 256, Two below
65536, Four otherwise; in particular 255 ↦ One, 256 ↦ Two, 65535 ↦ Two,
65536 ↦ Four. -/
theorem claim_C4_setPacketNumber_minimal (h : QuicHeader) (v : Nat)
    (hs : h.m_form = false) (hv : v < 2 ^ 32) :
    (SetPacketNumber h v).m_packetNumber = v ∧
    (SetPacketNumber h v).m_packetLength =
      (if v < 256 then ONE_OCTECT else if v < 65536 then TWO_OCTECTS else FOUR_OCTECTS) ∧
    (SetPacketNumber h 255).m_packetLength = ONE_OCTECT ∧
    (SetPacketNumber h 256).m_packetLength = TWO_OCTECTS ∧
    (SetPacketNumber h 65535).m_packetLength = TWO_OCTECTS ∧
    (SetPacketNumber h 65536).m_packetLength = FOUR_OCTECTS := by
  have hmod : v % 4294967296 = v := Nat.mod_eq_of_lt (by omega)
  rw [setPacketNumber_eval h v hs, setPacketNumber_eval h 255 hs,
    setPacketNumber_eval h 256 hs, setPacketNumber_eval h 65535 hs,
    setPacketNumber_eval h 65536 hs]
  simp [hmod, ONE_OCTECT, TWO_OCTECTS, FOUR_OCTECTS]

theorem claim_C4_witness :
    (SetPacketNumber (CreateShort 0 0 false false false) 300).m_packetNumber = 300 ∧
    (SetPacketNumber (CreateShort 0 0 false false false) 300).m_packetLength =
      (if 300 < 256 then ONE_OCTECT else if 300 < 65536 then TWO_OCTECTS
        else FOUR_OCTECTS) ∧
    (SetPacketNumber (CreateShort 0 0 false false false) 255).m_packetLength = ONE_OCTECT ∧
    (SetPacketNumber (CreateShort 0 0 false false false) 256).m_packetLength = TWO_OCTECTS ∧
    (SetPacketNumber (CreateShort 0 0 false false false) 65535).m_packetLength = TWO_OCTECTS ∧
    (SetPacketNumber (CreateShort 0 0 false false false) 65536).m_packetLength =
      FOUR_OCTECTS :=
  claim_C4_setPacketNumber_minimal (CreateShort 0 0 false false false) 300
    (by decide) (by decide)

/-- Claim C5: for a short header with a valid packet-number-length code the
size calculator returns `(8 + 160·hasConnectionId + packetNumberWidthBits) / 8`
with width 8/16/32 for One/Two/Four; with no connection id and a One-byte
packet number this is 2 bytes. -/
theorem claim_C5_short_size (h : QuicHeader) (hs : h.m_form = false)
    (hl : h.m_packetLength ≤ 2) :
    CalculateHeaderLength h =
      (8 + 160 * (if HasConnectionId h then 1 else 0) +
        (if h.m_packetLength = 0 then 8
          else if h.m_packetLength = 1 then 16 else 32)) / 8 ∧
    (h.m_c = false → h.m_packetLength = 0 → CalculateHeaderLength h = 2) := by
  have hcase : h.m_packetLength = 0 ∨ h.m_packetLength = 1 ∨ h.m_packetLength = 2 := by
    omega
  rcases hcase with h0 | h0 | h0 <;> cases hc : h.m_c <;>
    simp [CalculateHeaderLength, GetPacketNumLen, HasConnectionId, IsLong, IsShort,
      LONG, SHORT, hs, h0, hc]

theorem claim_C5_witness :
    CalculateHeaderLength (CreateShort 0 5 false false false) =
      (8 + 160 * (if HasConnectionId (CreateShort 0 5 false false false) then 1 else 0) +
        (if (CreateShort 0 5 false false false).m_packetLength = 0 then 8
          else if (CreateShort 0 5 false false false).m_packetLength = 1 then 16
          else 32)) / 8 ∧
    ((CreateShort 0 5 false false false).m_c = false →
      (CreateShort 0 5 false false false).m_packetLength = 0 →
      CalculateHeaderLength (CreateShort 0 5 false false false) = 2) :=
  claim_C5_short_size (CreateShort 0 5 false false false) (by decide) (by decide)

/-- Claim C6: a long header with `version = 0` (version negotiation)
serializes exactly flags, version, DCID length field, DCID, SCID length
field, SCID — 23 bytes, with no packet-number field — and the size
calculator's result `(8 + 32 + 8 + 8 + DCIDLength + SCIDLength) / 8`
contains no packet-number contribution. -/
theorem claim_C6_versionNegotiation_no_pn (h : QuicHeader) (hl : h.m_form = true)
    (hv : h.m_version = 0) (_ht : h.m_type ≠ NONE) :
    Serialize h =
      writeBE 1 (128 + h.m_fixed * 64 + h.m_type * 16) ++ writeBE 4 0 ++
        writeBE 1 h.m_DCIDLength ++ writeBE 8 h.m_connectionId ++
        writeBE 1 h.m_SCIDLength ++ writeBE 8 h.m_SCID ∧
    (Serialize h).length = 23 ∧
    CalculateHeaderLength h = (8 + 32 + 8 + 8 + h.m_DCIDLength + h.m_SCIDLength) / 8 := by
  refine ⟨?_, ?_, ?_⟩
  · simp [Serialize, hl, hv, IsVersionNegotiation]
  · simp [Serialize, hl, hv, IsVersionNegotiation, writeBE_length]
  · simp [CalculateHeaderLength, IsLong, LONG, hl, GetDCIDLen, GetSCIDLen]

theorem claim_C6_witness :
    Serialize (CreateVersionNegotiation 3 9 []) =
      writeBE 1 (128 + (CreateVersionNegotiation 3 9 []).m_fixed * 64 +
          (CreateVersionNegotiation 3 9 []).m_type * 16) ++ writeBE 4 0 ++
        writeBE 1 (CreateVersionNegotiation 3 9 []).m_DCIDLength ++
        writeBE 8 (CreateVersionNegotiation 3 9 []).m_connectionId ++
        writeBE 1 (CreateVersionNegotiation 3 9 []).m_SCIDLength ++
        writeBE 8 (CreateVersionNegotiation 3 9 []).m_SCID ∧
    (Serialize (CreateVersionNegotiation 3 9 [])).length = 23 ∧
    CalculateHeaderLength (CreateVersionNegotiation 3 9 []) =
      (8 + 32 + 8 + 8 + (CreateVersionNegotiation 3 9 []).m_DCIDLength +
        (CreateVersionNegotiation 3 9 []).m_SCIDLength) / 8 :=
  claim_C6_versionNegotiation_no_pn (CreateVersionNegotiation 3 9 [])
    (by decide) (by decide) (by decide)

/-- Claim C7: `CreateInitial (0x1122334455667788, 1, 5)` serializes to
flags `0xC0`, version `00 00 00 01`, the DCID length byte (0), the DCID
`11 22 33 44 55 66 77 88`, the SCID length byte (0), eight zero SCID
bytes, and the packet number `00 00 00 05`. -/
theorem claim_C7_createInitial_bytes :
    Serialize (CreateInitial 0x1122334455667788 0x00000001 5) =
      [0xC0,
       0x00, 0x00, 0x00, 0x01,
       0x00,
       0x11, 0x22, 0x33, 0x44, 0x55, 0x66, 0x77, 0x88,
       0x00,
       0x00, 0x00, 0x00, 0x00, 0x00, 0x00, 0x00, 0x00,
       0x00, 0x00, 0x00, 0x05] := by
  decide

/-- Claim C8: each format-specific accessor fails (the embedded
`InvalidFieldAccess` abort, `none`) exactly on the wrong format —
`GetVersion` on a short header, `GetConnectionId` on a short header whose
connection-id flag is clear, `GetSpinBit`/`GetKeyPhaseBit` on a long
header — and otherwise returns the stored field. -/
theorem claim_C8_accessor_guards (h : QuicHeader) :
    GetVersion h = (if h.m_form then some h.m_version else none) ∧
    GetConnectionId h =
      (if h.m_form = false ∧ h.m_c = false then none else some h.m_connectionId) ∧
    GetSpinBit h = (if h.m_form then none else some h.m_s) ∧
    GetKeyPhaseBit h = (if h.m_form then none else some h.m_k) := by
  cases hf : h.m_form <;> cases hc : h.m_c <;>
    simp [GetVersion, GetConnectionId, GetSpinBit, GetKeyPhaseBit, HasVersion,
      HasConnectionId, IsLong, IsShort, LONG, SHORT, hf, hc]

/-- Claim C10: `CreateVersionNegotiation` leaves `m_type` at the
constructor default `INITIAL` (the `SetType (VERSION_NEGOTIATION)` call is
commented out), so the result satisfies `IsInitial`, does not carry the
`VERSION_NEGOTIATION` type code, and is classified as a
version-negotiation packet only through its forced `version = 0`. -/
theorem claim_C10_versionNegotiation_stub (cid v : Nat) (svs : List Nat) :
    (CreateVersionNegotiation cid v svs).m_type = INITIAL ∧
    IsInitial (CreateVersionNegotiation cid v svs) = true ∧
    (CreateVersionNegotiation cid v svs).m_type ≠ VERSION_NEGOTIATION ∧
    (CreateVersionNegotiation cid v svs).m_version = 0 ∧
    IsVersionNegotiation (CreateVersionNegotiation cid v svs) = true := by
  simp [CreateVersionNegotiation, SetVersion, SetConnectionID, SetFormat,
    QuicHeader.fresh, IsInitial, IsVersionNegotiation, IsShort, SHORT, LONG,
    INITIAL, VERSION_NEGOTIATION]

/-- Claim C3 (counterexample): the short header
`CreateShort (1, 5, true, false, false)` uses packet-number-length One,
which the default-constructed decoding target already holds, so the
claim's only pre-set requirement is satisfied; yet the round trip fails,
because the target's clear `hasConnectionIdFlag` makes `Deserialize` skip
the 8-byte connection id that `Serialize` wrote. -/
theorem claim_C3_counterexample :
    (CreateShort 1 5 true false false).m_packetLength =
      QuicHeader.fresh.m_packetLength ∧
    headerEq (Deserialize (Serialize (CreateShort 1 5 true false false)) QuicHeader.fresh)
        (CreateShort 1 5 true false false) = false ∧
    (Deserialize (Serialize (CreateShort 1 5 true false false))
        QuicHeader.fresh).m_connectionId = 0 ∧
    (CreateShort 1 5 true false false).m_connectionId = 1 := by
  decide

/-- Claim C9 (counterexample): deserializing the short-header bytes
`[0x40, 0, 0, 0, 5]` into a target whose packet-number-length code is
pre-set to Four leaves the field at One, not at its pre-call value: the
trailing `SetPacketNumber` re-derives the code from the decoded value 5. -/
theorem claim_C9_counterexample :
    ({ QuicHeader.fresh with m_packetLength := 2 } : QuicHeader).m_packetLength = 2 ∧
    (Deserialize [64, 0, 0, 0, 5]
        { QuicHeader.fresh with m_packetLength := 2 }).m_packetLength = 0 := by
  decide

theorem readU8_writeBE (v : Nat) (tl : List Nat) :
    readU8 (writeBE 1 v ++ tl) = (v % 256, tl) := by
  simp [writeBE, readU8]

theorem setPacketNumber_pnCode (h : QuicHeader) (p : Nat) (hs : h.m_form = false) :
    (SetPacketNumber h p).m_packetLength =
      pnCode ((SetPacketNumber h p).m_packetNumber) := by
  rw [setPacketNumber_eval h p hs]
  simp only [pnCode, ONE_OCTECT, TWO_OCTECTS, FOUR_OCTECTS]

/-- Claim C3 (amended): the short-header round trip
`Deserialize (Serialize h) target == h` holds for every valid short header
(fixed bit 1, in-range fields, minimal packet-number-length code, and a
zero connection id when the presence flag is clear) provided the decoding
target has BOTH its `packetNumberLength` and its `hasConnectionIdFlag`
pre-set to the encoder's values; pre-setting `packetNumberLength` alone is
not sufficient when the header carries a connection id (see the
counterexample). -/
theorem claim_C3_amended (h : QuicHeader) (hs : h.m_form = false) (hfix : h.m_fixed = 1)
    (hpn : h.m_packetNumber < 2 ^ 32) (hcid : h.m_connectionId < 2 ^ 64)
    (hpl : h.m_packetLength = pnCode h.m_packetNumber)
    (hc0 : h.m_c = false → h.m_connectionId = 0) :
    headerEq
      (Deserialize (Serialize h)
        { QuicHeader.fresh with m_packetLength := h.m_packetLength, m_c := h.m_c }) h
      = true := by
  have hcid64 : h.m_connectionId % 18446744073709551616 = h.m_connectionId := by
    apply Nat.mod_eq_of_lt; omega
  have hpn32 : h.m_packetNumber % 4294967296 = h.m_packetNumber := by
    apply Nat.mod_eq_of_lt; omega
  by_cases h1 : h.m_packetNumber < 256
  · have hpl0 : h.m_packetLength = 0 := by
      rw [hpl]; simp [pnCode, ONE_OCTECT, h1]
    have hpnm : h.m_packetNumber % 256 = h.m_packetNumber := Nat.mod_eq_of_lt h1
    cases hsb : h.m_s <;> cases hkb : h.m_k <;> cases hcb : h.m_c <;>
      simp [Serialize, Deserialize, headerEq, HasConnectionId, IsShort, IsLong,
        IsVersionNegotiation, SHORT, LONG, SetConnectionID, SetPacketNumber,
        SetPacketLength, SetType, QuicHeader.fresh, ONE_OCTECT, TWO_OCTECTS,
        FOUR_OCTECTS, readU8_writeBE, readBE_writeBE, readBE_writeBE_nil,
        hs, hfix, hpl0, hpnm, hpn32, hcid64, h1, hc0, hsb, hkb, hcb]
  · by_cases h2 : h.m_packetNumber < 65536
    · have hpl0 : h.m_packetLength = 1 := by
        rw [hpl]; simp [pnCode, ONE_OCTECT, TWO_OCTECTS, h1, h2]
      have hpnm : h.m_packetNumber % 65536 = h.m_packetNumber := Nat.mod_eq_of_lt h2
      cases hsb : h.m_s <;> cases hkb : h.m_k <;> cases hcb : h.m_c <;>
        simp [Serialize, Deserialize, headerEq, HasConnectionId, IsShort, IsLong,
          IsVersionNegotiation, SHORT, LONG, SetConnectionID, SetPacketNumber,
          SetPacketLength, SetType, QuicHeader.fresh, ONE_OCTECT, TWO_OCTECTS,
          FOUR_OCTECTS, readU8_writeBE, readBE_writeBE, readBE_writeBE_nil,
          hs, hfix, hpl0, hpnm, hpn32, hcid64, h1, h2, hc0, hsb, hkb, hcb]
    · have hpl0 : h.m_packetLength = 2 := by
        rw [hpl]; simp [pnCode, ONE_OCTECT, TWO_OCTECTS, FOUR_OCTECTS, h1, h2]
      cases hsb : h.m_s <;> cases hkb : h.m_k <;> cases hcb : h.m_c <;>
        simp [Serialize, Deserialize, headerEq, HasConnectionId, IsShort, IsLong,
          IsVersionNegotiation, SHORT, LONG, SetConnectionID, SetPacketNumber,
          SetPacketLength, SetType, QuicHeader.fresh, ONE_OCTECT, TWO_OCTECTS,
          FOUR_OCTECTS, readU8_writeBE, readBE_writeBE, readBE_writeBE_nil,
          hs, hfix, hpl0, hpn32, hcid64, h1, h2, hc0, hsb, hkb, hcb]

theorem claim_C3_amended_witness :
    headerEq
      (Deserialize (Serialize (CreateShort 0xAABB 100 true false true))
        { QuicHeader.fresh with
            m_packetLength := (CreateShort 0xAABB 100 true false true).m_packetLength
            m_c := (CreateShort 0xAABB 100 true false true).m_c })
      (CreateShort 0xAABB 100 true false true) = true :=
  claim_C3_amended (CreateShort 0xAABB 100 true false true) (by decide) (by decide)
    (by decide) (by decide) (by decide) (by decide)

/-- Claim C9 (amended): for any short-header flags byte `b + c0` (bit 7
clear, `c0 < 4` the 2-bit packet-number-length code in bits 1-0) and any
pre-call target, the code in bits 1-0 is never extracted — the
deserialized result is unchanged when those two bits change — but the
field does not retain its pre-call value: when the pre-call code selects a
read width, the trailing `SetPacketNumber` re-derives
`packetNumberLength` as the minimal code of the decoded packet number. -/
theorem claim_C9_amended (b c0 : Nat) (bs : List Nat) (h0 : QuicHeader)
    (hb : b < 128) (hb4 : b % 4 = 0) (hc : c0 < 4) (hl : h0.m_packetLength ≤ 2) :
    Deserialize ((b + c0) :: bs) h0 = Deserialize (b :: bs) h0 ∧
    (Deserialize (b :: bs) h0).m_packetLength =
      pnCode ((Deserialize (b :: bs) h0).m_packetNumber) := by
  have m1 : (b + c0) % 256 = b + c0 := by omega
  have m2 : b % 256 = b := by omega
  have e128 : (b + c0) / 128 = b / 128 := by omega
  have e32 : (b + c0) / 32 = b / 32 := by omega
  have e16 : (b + c0) / 16 = b / 16 := by omega
  have e4 : (b + c0) / 4 = b / 4 := by omega
  have hform : b / 128 % 2 = 0 := by omega
  constructor
  · simp only [Deserialize, readU8, List.headD_cons, List.tail_cons, m1, m2,
      e128, e32, e16, e4]
  · have hpl3 : h0.m_packetLength = 0 ∨ h0.m_packetLength = 1 ∨ h0.m_packetLength = 2 := by
      omega
    rcases hpl3 with hE | hE | hE <;> cases hcb : h0.m_c <;>
      simp [Deserialize, readU8, IsShort, IsLong, SHORT, LONG, HasConnectionId,
        SetConnectionID, setPacketNumber_pnCode, m2, hform, hE, hcb]

theorem claim_C9_amended_witness :
    Deserialize ((64 + 3) :: [7]) QuicHeader.fresh =
      Deserialize (64 :: [7]) QuicHeader.fresh ∧
    (Deserialize (64 :: [7]) QuicHeader.fresh).m_packetLength =
      pnCode ((Deserialize (64 :: [7]) QuicHeader.fresh).m_packetNumber) :=
  claim_C9_amended 64 3 [7] QuicHeader.fresh (by decide) (by decide) (by decide)
    (by decide)

end QuicCodec
